import Mathlib

/-!
Verification of the pyCocos client core: a shallow embedding of the
session/auth state machine, the order-validation and ticker-composition
logic of `pycocos/main.py`, and the request executor of
`pycocos/components/client.py`.

Python strings are modelled as `List Char`; Python runtime values that flow
through dictionaries are modelled by the small universe `PyObj`; Python
exceptions become the error side of `Except PyErr`.  Network responses are
passed in as explicit oracle arguments.
-/

namespace PyCocos

/-- A Python runtime value as it appears in the client's dictionaries:
a str, a bool, a number (floats are modelled as rationals), an enum member
(identified by its class and member name), a 2-tuple, or None.
Structural equality models Python `==` for these shapes; in particular a
str is never `==` to an enum member or to a tuple. -/
inductive PyObj where
  | pstr : List Char → PyObj
  | pbool : Bool → PyObj
  | pnum : ℚ → PyObj
  | penum : String → String → PyObj
  | ppair : PyObj → PyObj → PyObj
  | pnone : PyObj
deriving DecidableEq, Repr

/-- String literal helper: the character list of a Lean string literal. -/
def S (s : String) : List Char := s.data

/-- Python truthiness for the modelled values. -/
def pyTruthy : PyObj → Bool
  | PyObj.pstr s => !s.isEmpty
  | PyObj.pbool b => b
  | PyObj.pnum q => q != 0
  | PyObj.penum _ _ => true
  | PyObj.ppair _ _ => true
  | PyObj.pnone => false

/-- Python exceptions raised by the modelled code paths. -/
inductive PyErr where
  | keyError
  | valueError
  | typeError
  | zeroDivisionError
  | indexError
  | unboundLocalError
  | apiException (msg : String)
  | exception (msg : String)
deriving DecidableEq, Repr

/-- A Python dict with `List Char` keys: an association list, first match wins. -/
def lookupKV {α : Type} (d : List (List Char × α)) (k : List Char) : Option α :=
  (d.find? (fun kv => kv.1 == k)).map (fun kv => kv.2)

/-- `k in d` for a Python dict. -/
def dictHasKey {α : Type} (d : List (List Char × α)) (k : List Char) : Bool :=
  (d.find? (fun kv => kv.1 == k)).isSome

/-- `d[k]`: raises KeyError when the key is absent. -/
def pyGetItem {α : Type} (d : List (List Char × α)) (k : List Char) : Except PyErr α :=
  match lookupKV d k with
  | some v => Except.ok v
  | none => Except.error PyErr.keyError

/-- ASCII case table: each lowercase letter with its uppercase partner. -/
def upPairs : List (Char × Char) :=
  [('a', 'A'), ('b', 'B'), ('c', 'C'), ('d', 'D'), ('e', 'E'), ('f', 'F'), ('g', 'G'),
   ('h', 'H'), ('i', 'I'), ('j', 'J'), ('k', 'K'), ('l', 'L'), ('m', 'M'), ('n', 'N'),
   ('o', 'O'), ('p', 'P'), ('q', 'Q'), ('r', 'R'), ('s', 'S'), ('t', 'T'), ('u', 'U'),
   ('v', 'V'), ('w', 'W'), ('x', 'X'), ('y', 'Y'), ('z', 'Z')]

/-- ASCII uppercase of one character, as `str.upper` maps it. -/
def upChar (c : Char) : Char :=
  ((upPairs.find? (fun p => p.1 == c)).map (fun p => p.2)).getD c

/-- `ticker.upper()` on the ASCII fragment the client uses. -/
def pyUpper (s : List Char) : List Char := s.map upChar

/-- ASCII lowercase of one character, as `str.lower` maps it. -/
def lowChar (c : Char) : Char :=
  (((upPairs.map (fun p => (p.2, p.1))).find? (fun p => p.1 == c)).map (fun p => p.2)).getD c

/-- `s.lower()` on the ASCII fragment the client uses. -/
def pyLower (s : List Char) : List Char := s.map lowChar

/-- `s.split("-")`: Python's split on a single-character separator. -/
def splitDash : List Char → List (List Char)
  | [] => [[]]
  | c :: cs =>
    if c = '-' then [] :: splitDash cs
    else
      match splitDash cs with
      | [] => [[c]]
      | w :: ws => (c :: w) :: ws

/-- `Settlement` enum of `components/enums.py`. -/
inductive Settlement where
  | T0
  | T1
  | T2
  | NONE
deriving DecidableEq, Repr

/-- Wire value of each `Settlement` member. -/
def Settlement.value : Settlement → List Char
  | Settlement.T0 => S "CI"
  | Settlement.T1 => S "24hs"
  | Settlement.T2 => S "48hs"
  | Settlement.NONE => S ""

/-- `Currency` enum of `components/enums.py`. -/
inductive Currency where
  | ALL
  | CABLE
  | NONE
  | PESOS
  | USD
deriving DecidableEq, Repr

/-- Wire value of each `Currency` member. -/
def Currency.value : Currency → List Char
  | Currency.ALL => S "INDISTINTO"
  | Currency.CABLE => S "EXT"
  | Currency.NONE => S ""
  | Currency.PESOS => S "ARS"
  | Currency.USD => S "USD"

/-- `Segment` enum of `components/enums.py`. -/
inductive Segment where
  | DEFAULT
  | FCI
  | OPTIONS
  | REPO
deriving DecidableEq, Repr

/-- Wire value of each `Segment` member. -/
def Segment.value : Segment → List Char
  | Segment.DEFAULT => S "C"
  | Segment.FCI => S "FCI"
  | Segment.OPTIONS => S "O"
  | Segment.REPO => S "U"

/-- `Segment(value)`: Python enum lookup by value, `none` when no member
has that value (the Python constructor raises ValueError there). -/
def Segment.ofValue (s : List Char) : Option Segment :=
  if s = S "C" then some Segment.DEFAULT
  else if s = S "FCI" then some Segment.FCI
  else if s = S "O" then some Segment.OPTIONS
  else if s = S "U" then some Segment.REPO
  else none

/-- `PerformanceTimeframe` enum of `components/enums.py`. -/
inductive PerformanceTimeframe where
  | DAILY
  | HISTORICAL
  | RANGE
deriving DecidableEq, Repr

/-- `Cocos._get_byma_settlement`: fixed tenor-to-code map with `""` as the
`dict.get` default for any other settlement. -/
def get_byma_settlement : Settlement → List Char
  | Settlement.T0 => S "0001"
  | Settlement.T1 => S "0002"
  | Settlement.T2 => S "0003"
  | Settlement.NONE => S ""

/-- `Cocos._get_cocos_settlement`: inverse code-to-tenor map, `none` on miss. -/
def get_cocos_settlement (settlement : List Char) : Option Settlement :=
  if settlement = S "0001" then some Settlement.T0
  else if settlement = S "0002" then some Settlement.T1
  else if settlement = S "0003" then some Settlement.T2
  else none

/-- `Cocos._get_byma_currency`: the enum member's wire value. -/
def get_byma_currency (currency : Currency) : List Char := currency.value

/-- `Cocos.long_ticker`: FCI collapses to the bare uppercased ticker,
otherwise the f-string `TICKER-SETTLEMENT-SEGMENT-CT-CURRENCY`. -/
def long_ticker (ticker : List Char) (settlement : Settlement) (currency : Currency)
    (segment : Segment) : List Char :=
  if segment = Segment.FCI then pyUpper ticker
  else
    pyUpper ticker ++ S "-" ++ get_byma_settlement settlement ++ S "-" ++
      segment.value ++ S "-CT-" ++ get_byma_currency currency

/-- The five-field unpacking `a, b, c, d, e = long_ticker.split("-")` used by
`Cocos._validate_buy_order`; `none` models the ValueError when the split
does not produce exactly five fields. -/
def decompose_long_ticker (lt : List Char) :
    Option (List Char × List Char × List Char × List Char × List Char) :=
  match splitDash lt with
  | [a, b, c, d, e] => some (a, b, c, d, e)
  | _ => none

/-! ## Request executor (`RestClient.api_request`) -/

/-- One HTTP response: status code and parsed JSON body. -/
structure HttpResp where
  status : Nat
  body : PyObj

/-- The recursive call `self.api_request(path, retry=False)` inside
`RestClient.api_request`: dispatches attempt `idx`, parses the body, raises
ApiException on 401 (no further retry) and on 500, otherwise returns the
parsed body.  The second component counts HTTP dispatches made so far. -/
def api_request_retry (send : Nat → HttpResp) (idx : Nat) :
    Except PyErr PyObj × Nat :=
  let response := send idx
  let json_response := response.body
  if response.status = 401 then
    (Except.error (PyErr.apiException "Authentication Fails."), idx + 1)
  else if response.status = 500 then
    (Except.error (PyErr.apiException "Error 500"), idx + 1)
  else
    (Except.ok json_response, idx + 1)

/-- `RestClient.api_request` with `retry=True` (the default): dispatches the
request, parses the body, and on a 401 re-enters itself once with
`retry=False`.  The retried call's return value is discarded; when it does
not raise, control falls through the 500/200 checks with the original 401
response and returns its parsed body.  The second component is the total
number of HTTP dispatches. -/
def api_request (send : Nat → HttpResp) : Except PyErr PyObj × Nat :=
  let response := send 0
  let json_response := response.body
  if response.status = 401 then
    let retried := api_request_retry send 1
    match retried.1 with
    | Except.error e => (Except.error e, retried.2)
    | Except.ok _ => (Except.ok json_response, retried.2)
  else if response.status = 500 then
    (Except.error (PyErr.apiException "Error 500"), 1)
  else
    (Except.ok json_response, 1)

/-! ## Second-factor step (`Cocos._2fa_challenge`) -/

/-- Outcome of a `_2fa_challenge` run that did not raise: the new access
token was installed and control proceeds to `_auth_phase_2`. -/
inductive TwoFAOutcome where
  | verified
deriving DecidableEq, Repr

/-- `Cocos._2fa_challenge`.  `sfr` is the parsed factor-status response and
`verify_response` the parsed body of the verify endpoint.  The local
variable `challenge_id` is assigned only inside the
`if "requireChallenge" in ... and ...:` branch; when that branch is not
taken, building the challenge payload reads the unassigned variable and
Python raises UnboundLocalError. -/
def twofa_challenge (sfr : List (List Char × PyObj))
    (verify_response : List (List Char × PyObj)) : Except PyErr TwoFAOutcome :=
  if dictHasKey sfr (S "requireChallenge") &&
      pyTruthy ((lookupKV sfr (S "requireChallenge")).getD PyObj.pnone) then
    match lookupKV sfr (S "id") with
    | none => Except.error PyErr.keyError
    | some _challenge_id =>
      if dictHasKey verify_response (S "access_token") then
        Except.ok TwoFAOutcome.verified
      else
        Except.error (PyErr.exception "Error: Access token not found in the API response")
  else
    Except.error PyErr.unboundLocalError

/-! ## Buy-order validation (`Cocos._validate_buy_order`) -/

/-- Network data consumed by `_validate_buy_order`:
the instrument-snapshot list returned by `get_instrument_snapshot`, the
buying-power response of `funds_available` (settlement wire value to a
currency-keyed map of floats), and the behaviour of `float()` on a str. -/
structure BuyOracles where
  snapshot : List (List (List Char × PyObj))
  funds : List (List Char × List (List Char × ℚ))
  parse : List Char → Option ℚ

/-- `Cocos._get_instrument_snapshot_value_by_key`: first snapshot entry whose
`long_ticker` equals the requested one gives `entry.get(key)` (None when the
key is absent), otherwise the empty string. -/
def snapshot_value_by_key (snapshot : List (List (List Char × PyObj)))
    (lt : List Char) (key : List Char) : PyObj :=
  match snapshot.find?
      (fun inst => (lookupKV inst (S "long_ticker")).getD PyObj.pnone == PyObj.pstr lt) with
  | some inst => (lookupKV inst key).getD PyObj.pnone
  | none => PyObj.pstr (S "")

/-- `float(v)` applied to a modelled Python value; `parse` gives the
float-literal reading of a str. -/
def py_float (parse : List Char → Option ℚ) : PyObj → Except PyErr ℚ
  | PyObj.pstr s =>
    match parse s with
    | some q => Except.ok q
    | none => Except.error PyErr.valueError
  | PyObj.pnum q => Except.ok q
  | PyObj.pbool b => Except.ok (if b then 1 else 0)
  | _ => Except.error PyErr.typeError

/-- `x / price_factor` where `price_factor` is whatever object the snapshot
lookup produced: TypeError on a non-number, ZeroDivisionError on zero. -/
def py_div_obj (x : ℚ) : PyObj → Except PyErr ℚ
  | PyObj.pnum q => if q = 0 then Except.error PyErr.zeroDivisionError else Except.ok (x / q)
  | PyObj.pbool b => if b then Except.ok (x / 1) else Except.error PyErr.zeroDivisionError
  | _ => Except.error PyErr.typeError

/-- `Cocos._validate_buy_order`, statement by statement.  Note two facts the
model makes visible rather than repairing: `payload["type"]` is a str and is
compared with `==` against `OrderType` enum members (never equal), and
`'amount' not in payload.items()` compares a str against key-value tuples
(always true). -/
def validate_buy_order (o : BuyOracles) (payload : List (List Char × PyObj)) :
    Except PyErr Bool := do
  let ltObj ← pyGetItem payload (S "long_ticker")
  let lt ← match ltObj with
    | PyObj.pstr s => pure s
    | _ => throw PyErr.typeError
  let (_instrument_code, settlementCode, segmentCode, currencyCode) ←
    match splitDash lt with
    | [a, b, g, _, e] => pure (a, b, g, e)
    | _ => throw PyErr.valueError
  let _segment ← match Segment.ofValue segmentCode with
    | some g => pure g
    | none => throw PyErr.valueError
  match get_cocos_settlement settlementCode with
  | none => pure false
  | some settlement => do
    let typeObj ← pyGetItem payload (S "type")
    if typeObj == PyObj.penum "OrderType" "LIMIT" then
      if !(dictHasKey payload (S "price")) then
        throw (PyErr.apiException "The parameter price must be present in LIMIT order")
      if !(dictHasKey payload (S "quantity")) || !(dictHasKey payload (S "amount")) then
        throw (PyErr.apiException "The parameter quantity or amount must be present in LIMIT order")
    if typeObj == PyObj.penum "OrderType" "MARKET" then
      if dictHasKey payload (S "price") then
        throw (PyErr.apiException "The paramenter price cant be present in MARKET order")
      if dictHasKey payload (S "amount") && dictHasKey payload (S "quantity") then
        throw (PyErr.apiException "The parameters amount and quantity cant be present simultaneously in MARKET order")
    let _price : PyObj :=
      if !(dictHasKey payload (S "price")) then
        snapshot_value_by_key o.snapshot lt (S "ask")
      else
        (lookupKV payload (S "price")).getD PyObj.pnone
    let amount_in_items : Bool :=
      payload.any (fun kv => PyObj.pstr (S "amount") == PyObj.ppair (PyObj.pstr kv.1) kv.2)
    let order_total ←
      if !amount_in_items then do
        let price_factor := snapshot_value_by_key o.snapshot lt (S "price_factor")
        let qObj ← pyGetItem payload (S "quantity")
        let q ← py_float o.parse qObj
        let pObj ← pyGetItem payload (S "price")
        let p ← py_float o.parse pObj
        py_div_obj (q * p) price_factor
      else do
        let aObj ← pyGetItem payload (S "amount")
        py_float o.parse aObj
    let fundsAtSettlement ← pyGetItem o.funds settlement.value
    let available ← pyGetItem fundsAtSettlement (pyLower currencyCode)
    pure (decide (available ≥ order_total))

/-! ## Sell-power validation (`Cocos._validate_sell_power`) -/

/-- `Cocos._validate_sell_power`.  `available_stocks` is the parsed
selling-power response (settlement wire value to quantity); `quantity` is
the float value of the requested quantity string. -/
def validate_sell_power (available_stocks : List (List Char × ℚ))
    (long_ticker : List Char) (quantity : ℚ) : Except PyErr Bool :=
  match (splitDash long_ticker)[1]? with
  | none => Except.error PyErr.indexError
  | some code =>
    match get_cocos_settlement code with
    | none => Except.ok false
    | some settlement =>
      Except.ok (decide ((lookupKV available_stocks settlement.value).getD 0 ≥ quantity))

/-! ## Instrument-list parameter validation -/

/-- `Cocos.allowed_combinations`: the fixed list of (type, subtype) pairs. -/
def allowed_combinations : List (String × String) :=
  [("ACCIONES", "LIDERES"),
   ("ACCIONES", "GENERAL"),
   ("CEDEARS", "TOP"),
   ("CEDEARS", "ETF"),
   ("CEDEARS", "NUEVOS"),
   ("CEDEARS", "OTROS"),
   ("BONOS_PUBLICOS", "NACIONALES_USD"),
   ("BONOS_PUBLICOS", "NACIONALES_ARS"),
   ("BONOS_PUBLICOS", "PROVINCIALES"),
   ("BONOS_CORP", "TOP"),
   ("LETRAS", "TASA_FIJA"),
   ("LETRAS", "CER"),
   ("FCI", "PF")]

/-- Python `s in tpl` for a 2-tuple: membership in either component. -/
def py_in_tuple (s : String) (tpl : String × String) : Bool :=
  s == tpl.1 || s == tpl.2

/-- `Cocos._validate_list_parameters`: scans `allowed_combinations` and
returns true on the first tuple that contains both strings. -/
def validate_list_parameters (type : String) (subtype : String) : Bool :=
  allowed_combinations.any (fun tpl => py_in_tuple type tpl && py_in_tuple subtype tpl)

/-! ## Portfolio performance (`Cocos.portfolio_performance`) -/

/-- `urls.endpoints["daily_performance"]`. -/
def daily_performance_path : List Char := S "api/v1/wallet/performance/daily"

/-- `urls.endpoints["historic_performance"]`, the endpoint used only by
`RestClient.get_historic_performance`. -/
def historic_performance_path : List Char := S "api/v1/wallet/performance/historic"

/-- `urls.endpoints["performance_period"]` with the two dates substituted. -/
def performance_period_path (date_from date_to : List Char) : List Char :=
  S "api/v1/wallet/performance/global?date_from=" ++ date_from ++ S "&date_to=" ++ date_to

/-- `Cocos.portfolio_performance`: the endpoint the client requests for a
given timeframe and date arguments. -/
def portfolio_performance (timeframe : PerformanceTimeframe)
    (date_from date_to : List Char) : List Char :=
  if timeframe ≠ PerformanceTimeframe.RANGE then daily_performance_path
  else performance_period_path date_from date_to

/-! ## Orders list effect of `Cocos.submit_buy_order` -/

/-- The effect of `Cocos.submit_buy_order` on `self.orders` once the
submission response is in hand: when `"success" in response.keys()`, append
`response["Orden"]` via `_add_order` (KeyError when that key is missing and
the list is left unchanged); otherwise leave the list unchanged. -/
def submit_buy_order_orders (orders : List PyObj)
    (response : List (List Char × PyObj)) : Except PyErr (List PyObj) :=
  if dictHasKey response (S "success") then
    match lookupKV response (S "Orden") with
    | none => Except.error PyErr.keyError
    | some v => Except.ok (orders ++ [v])
  else Except.ok orders

/-! ## Helper instances and lemmas -/

instance {ε α : Type} [DecidableEq ε] [DecidableEq α] : DecidableEq (Except ε α) := fun x y =>
  match x, y with
  | Except.ok a, Except.ok b =>
    if h : a = b then isTrue (by rw [h]) else isFalse (fun he => by cases he; exact h rfl)
  | Except.error a, Except.error b =>
    if h : a = b then isTrue (by rw [h]) else isFalse (fun he => by cases he; exact h rfl)
  | Except.ok _, Except.error _ => isFalse (fun he => by cases he)
  | Except.error _, Except.ok _ => isFalse (fun he => by cases he)

lemma upChar_ne_dash {c : Char} (h : c ≠ '-') : upChar c ≠ '-' := by
  intro he
  unfold upChar at he
  cases hf : upPairs.find? (fun p => p.1 == c) with
  | none => rw [hf] at he; simp at he; exact h he
  | some p =>
    rw [hf] at he
    simp at he
    have hp : p ∈ upPairs := List.mem_of_find?_eq_some hf
    have hall : ∀ q ∈ upPairs, q.2 ≠ '-' := by decide
    exact hall p hp he

lemma pyUpper_no_dash {t : List Char} (ht : '-' ∉ t) : '-' ∉ pyUpper t := by
  intro hm
  rcases List.mem_map.mp hm with ⟨c, hc, hup⟩
  exact upChar_ne_dash (fun he => ht (he ▸ hc)) hup

lemma splitDash_no_dash : ∀ {l : List Char}, '-' ∉ l → splitDash l = [l] := by
  intro l
  induction l with
  | nil => intro _; rfl
  | cons c cs ih =>
    intro h
    have hc : ¬ c = '-' := fun e => h (by rw [e]; exact List.mem_cons_self _ _)
    have hcs : '-' ∉ cs := fun m => h (List.mem_cons_of_mem _ m)
    simp only [splitDash, if_neg hc, ih hcs]

lemma splitDash_append : ∀ {a : List Char}, '-' ∉ a →
    ∀ b, splitDash (a ++ '-' :: b) = a :: splitDash b := by
  intro a
  induction a with
  | nil => intro _ b; simp [splitDash]
  | cons c cs ih =>
    intro h b
    have hc : ¬ c = '-' := fun e => h (by rw [e]; exact List.mem_cons_self _ _)
    have hcs : '-' ∉ cs := fun m => h (List.mem_cons_of_mem _ m)
    simp only [List.cons_append, splitDash, if_neg hc, List.append_eq]
    rw [ih hcs]

lemma splitDash_five (a b c d e : List Char) (ha : '-' ∉ a) (hb : '-' ∉ b)
    (hc : '-' ∉ c) (hd : '-' ∉ d) (he : '-' ∉ e) :
    splitDash (a ++ '-' :: (b ++ '-' :: (c ++ '-' :: (d ++ '-' :: e)))) = [a, b, c, d, e] := by
  rw [splitDash_append ha, splitDash_append hb, splitDash_append hc, splitDash_append hd,
    splitDash_no_dash he]

lemma long_ticker_eq (t : List Char) (s : Settlement) (cur : Currency) (seg : Segment)
    (hseg : seg ≠ Segment.FCI) :
    long_ticker t s cur seg =
      pyUpper t ++ '-' :: (get_byma_settlement s ++ '-' ::
        (seg.value ++ '-' :: (S "CT" ++ '-' :: cur.value))) := by
  unfold long_ticker
  rw [if_neg hseg]
  simp only [List.append_assoc]
  rfl

/-! ## Claim C1 -/

/-- Claim C1: in the second-factor step, a factor-status response reporting no
challenge required is claimed to transition directly to ChallengeVerified and
complete authentication.  The code instead raises UnboundLocalError on every
such response, because `challenge_id` is assigned only inside the
requireChallenge branch but is read unconditionally when the challenge payload
is built: authentication never completes on the no-challenge path.  This
theorem evaluates the embedded `_2fa_challenge` at two no-challenge responses
(an explicit `requireChallenge: false` and an empty response). -/
theorem c1_no_challenge_unbound :
    twofa_challenge [(S "requireChallenge", PyObj.pbool false)]
        [(S "access_token", PyObj.pstr (S "tok"))] =
      Except.error PyErr.unboundLocalError ∧
    twofa_challenge [] [(S "access_token", PyObj.pstr (S "tok"))] =
      Except.error PyErr.unboundLocalError := by
  exact ⟨by decide, by decide⟩

/-! ## Claim C2 -/

/-- Oracle data for the C2 evaluation: a snapshot entry for the long ticker
with price factor 1 and ask 100, funds of 1000 ARS at CI, and the float
readings of the payload's number strings. -/
def c2_oracles : BuyOracles := {
  snapshot := [[(S "long_ticker", PyObj.pstr (S "AAPL-0001-C-CT-ARS")),
                (S "price_factor", PyObj.pnum 1), (S "ask", PyObj.pnum 100)]],
  funds := [(S "CI", [(S "ars", 1000)])],
  parse := fun s =>
    if s = S "100" then some 100 else if s = S "2" then some 2 else none }

/-- A market buy order carrying an explicit price: the shape invariant says
validation must raise a domain error for it. -/
def c2_payload : List (List Char × PyObj) :=
  [(S "long_ticker", PyObj.pstr (S "AAPL-0001-C-CT-ARS")),
   (S "side", PyObj.pstr (S "BUY")),
   (S "type", PyObj.pstr (S "MARKET")),
   (S "price", PyObj.pstr (S "100")),
   (S "quantity", PyObj.pstr (S "2"))]

/-- Claim C2: an order-shape violation (here, a market order carrying a price)
is claimed to raise a domain error before the submission network call.  The
code never raises: `payload["type"]` holds the str "MARKET" and is compared
with `==` against the `OrderType` enum members, which is always false, so every
shape-check branch is dead.  This theorem evaluates the embedded
`_validate_buy_order` at such a violating payload and shows it returns True
(funds sufficient), after which `submit_buy_order` proceeds to the network
call. -/
theorem c2_market_price_not_rejected :
    validate_buy_order c2_oracles c2_payload = Except.ok true := by
  have h : validate_buy_order c2_oracles c2_payload =
      Except.ok (decide ((1000 : ℚ) ≥ 2 * 100 / 1)) := rfl
  rw [h]
  norm_num

/-! ## Claim C3 -/

/-- Claim C3: for every request, a 401 on the first attempt causes exactly one
retry (two dispatches in total, never a third); a 401 on the retry as well
raises the authentication error; a non-401 first response causes no retry.
`send n` is the response the remote returns to the n-th dispatch of this
request, and the second component of `api_request` counts dispatches. -/
theorem c3_retry_policy (send : Nat → HttpResp) :
    ((send 0).status = 401 → (api_request send).2 = 2) ∧
    ((send 0).status = 401 → (send 1).status = 401 →
      (api_request send).1 = Except.error (PyErr.apiException "Authentication Fails.") ∧
      (api_request send).2 = 2) ∧
    ((send 0).status ≠ 401 → (api_request send).2 = 1) := by
  refine ⟨?_, ?_, ?_⟩
  · intro h0
    by_cases h1 : (send 1).status = 401
    · simp [api_request, api_request_retry, h0, h1]
    · by_cases h5 : (send 1).status = 500 <;>
        simp [api_request, api_request_retry, h0, h1, h5]
  · intro h0 h1
    simp [api_request, api_request_retry, h0, h1]
  · intro h0
    by_cases h5 : (send 0).status = 500 <;>
      simp [api_request, api_request_retry, h0, h5]

/-- Witness for C3 at concrete response streams: both attempts 401 gives the
authentication error after exactly two dispatches; a 200 first response gives
one dispatch. -/
theorem c3_retry_policy_witness :
    (api_request (fun _ => ⟨401, PyObj.pnone⟩)).1 =
      Except.error (PyErr.apiException "Authentication Fails.") ∧
    (api_request (fun _ => ⟨401, PyObj.pnone⟩)).2 = 2 ∧
    (api_request (fun _ => ⟨200, PyObj.pnone⟩)).2 = 1 := by
  refine ⟨((c3_retry_policy _).2.1 rfl rfl).1, (c3_retry_policy _).1 rfl,
    (c3_retry_policy _).2.2 ?_⟩
  decide

/-! ## Claim C4 -/

/-- Oracle data for the C4 evaluation: same snapshot shape, ample funds. -/
def c4_oracles : BuyOracles := {
  snapshot := [[(S "long_ticker", PyObj.pstr (S "AAPL-0001-C-CT-ARS")),
                (S "price_factor", PyObj.pnum 1), (S "ask", PyObj.pnum 100)]],
  funds := [(S "CI", [(S "ars", 1000)])],
  parse := fun s =>
    if s = S "10" then some 10 else if s = S "100" then some 100 else none }

/-- A shape-valid limit buy order carrying a price and an amount but no
quantity: the claim says its total is the explicit amount 100, well within the
1000 ARS available. -/
def c4_payload : List (List Char × PyObj) :=
  [(S "long_ticker", PyObj.pstr (S "AAPL-0001-C-CT-ARS")),
   (S "side", PyObj.pstr (S "BUY")),
   (S "type", PyObj.pstr (S "LIMIT")),
   (S "price", PyObj.pstr (S "10")),
   (S "amount", PyObj.pstr (S "100"))]

/-- Claim C4: for a shape-valid payload with an amount, validation is claimed
to use the explicit amount as the order total and return funds ≥ total.  The
code instead raises KeyError on `payload["quantity"]`: the branch test
`'amount' not in payload.items()` compares the str "amount" against key-value
tuples and is therefore always true, so the amount branch is unreachable and
the quantity/price branch runs even when no quantity was given.  (For the same
reason the snapshot asking price, looked up into the local `price` variable
when no explicit price is present, is never used: the total always reads
`payload["price"]` directly.)  This theorem evaluates the embedded
`_validate_buy_order` at such a payload. -/
theorem c4_amount_order_keyerror :
    validate_buy_order c4_oracles c4_payload = Except.error PyErr.keyError := by
  decide

/-! ## Claim C5 -/

/-- Counterexample to C5 as stated: the claim quantifies over every ticker,
but a ticker that itself contains a hyphen makes the composed long ticker
split into more than five fields, so the five-way decomposition fails and
recovers nothing. -/
theorem c5_counterexample :
    decompose_long_ticker
      (long_ticker (S "a-b") Settlement.T0 Currency.PESOS Segment.DEFAULT) = none := by
  decide

/-- Claim C5 (amended to hyphen-free tickers): for every ticker containing no
hyphen, every supported settlement tenor (T0, T1, T2), every currency and
every non-fund segment, decomposing the composed long ticker yields exactly
the five composed fields, and the settlement and segment codes map back to the
original settlement and segment; for the fund-type segment the composition
collapses to the bare uppercased ticker, which the five-field decomposition
does not accept (not round-trippable). -/
theorem c5_roundtrip (t : List Char) (ht : '-' ∉ t) (s : Settlement)
    (hs : s ≠ Settlement.NONE) (cur : Currency) (seg : Segment)
    (hseg : seg ≠ Segment.FCI) :
    decompose_long_ticker (long_ticker t s cur seg) =
      some (pyUpper t, get_byma_settlement s, seg.value, S "CT", cur.value) ∧
    get_cocos_settlement (get_byma_settlement s) = some s ∧
    Segment.ofValue seg.value = some seg ∧
    long_ticker t s cur Segment.FCI = pyUpper t ∧
    decompose_long_ticker (long_ticker t s cur Segment.FCI) = none := by
  have hU : '-' ∉ pyUpper t := pyUpper_no_dash ht
  have hcode : '-' ∉ get_byma_settlement s := by cases s <;> decide
  have hsegv : '-' ∉ Segment.value seg := by cases seg <;> decide
  have hct : '-' ∉ S "CT" := by decide
  have hcur : '-' ∉ Currency.value cur := by cases cur <;> decide
  have hfci : long_ticker t s cur Segment.FCI = pyUpper t := by simp [long_ticker]
  refine ⟨?_, ?_, ?_, hfci, ?_⟩
  · unfold decompose_long_ticker
    rw [long_ticker_eq t s cur seg hseg,
      splitDash_five (pyUpper t) (get_byma_settlement s) (Segment.value seg) (S "CT")
        (Currency.value cur) hU hcode hsegv hct hcur]
  · cases s with
    | T0 => decide
    | T1 => decide
    | T2 => decide
    | NONE => exact absurd rfl hs
  · cases seg with
    | DEFAULT => decide
    | OPTIONS => decide
    | REPO => decide
    | FCI => exact absurd rfl hseg
  · rw [hfci]
    unfold decompose_long_ticker
    rw [splitDash_no_dash hU]

/-- Witness for C5 at a concrete hyphen-free ticker. -/
theorem c5_roundtrip_witness :
    decompose_long_ticker
        (long_ticker (S "aapl") Settlement.T1 Currency.PESOS Segment.DEFAULT) =
      some (S "AAPL", S "0002", S "C", S "CT", S "ARS") :=
  (c5_roundtrip (S "aapl") (by decide) Settlement.T1 (by decide) Currency.PESOS
    Segment.DEFAULT (by decide)).1

/-! ## Claim C6 -/

/-- Counterexample to C6 as stated: the scan tests membership of each string
in the tuple, not the ordered pair, so the swapped pair ("LIDERES",
"ACCIONES") is accepted even though it is not in the allowed set. -/
theorem c6_counterexample :
    validate_list_parameters "LIDERES" "ACCIONES" = true ∧
    ("LIDERES", "ACCIONES") ∉ allowed_combinations := by
  exact ⟨by decide, by decide⟩

/-- Claim C6 (amended): `_validate_list_parameters` returns true iff some
tuple of the fixed allowed-combinations set contains both arguments as
components (in either slot); in particular ("ACCIONES", "LIDERES") is accepted
and ("ACCIONES", "TOP") is rejected. -/
theorem c6_membership_semantics :
    (∀ type subtype, validate_list_parameters type subtype = true ↔
      ∃ p ∈ allowed_combinations,
        (type = p.1 ∨ type = p.2) ∧ (subtype = p.1 ∨ subtype = p.2)) ∧
    validate_list_parameters "ACCIONES" "LIDERES" = true ∧
    validate_list_parameters "ACCIONES" "TOP" = false := by
  refine ⟨fun type subtype => ?_, by decide, by decide⟩
  simp [validate_list_parameters, py_in_tuple, List.any_eq_true, Bool.and_eq_true,
    Bool.or_eq_true, beq_iff_eq]

/-! ## Claim C7 -/

/-- Claim C7: for every long ticker that has a settlement-code field, if the
code is unresolvable the validation returns false; if it resolves to a tenor,
validation succeeds iff the requested quantity is at most the stock available
at that tenor, where a tenor absent from the selling-power response counts as
zero (the `.get(..., 0)` default) and equality is sufficient. -/
theorem c7_sell_power (stocks : List (List Char × ℚ)) (lt : List Char) (q : ℚ)
    (code : List Char) (h : (splitDash lt)[1]? = some code) :
    (get_cocos_settlement code = none →
      validate_sell_power stocks lt q = Except.ok false) ∧
    (∀ s, get_cocos_settlement code = some s →
      (validate_sell_power stocks lt q = Except.ok true ↔
        q ≤ (lookupKV stocks s.value).getD 0)) := by
  constructor
  · intro hn
    simp [validate_sell_power, h, hn]
  · intro s hs
    simp [validate_sell_power, h, hs, ge_iff_le, decide_eq_true_eq]

/-- Witness for C7 at the equality boundary: five stocks available at CI and
five requested is accepted. -/
theorem c7_sell_power_witness :
    validate_sell_power [(S "CI", 5)] (S "AAPL-0001-C-CT-ARS") 5 = Except.ok true := by
  refine ((c7_sell_power [(S "CI", 5)] (S "AAPL-0001-C-CT-ARS") 5 (S "0001")
    (by decide)).2 Settlement.T0 (by decide)).mpr ?_
  decide

/-! ## Claim C8 -/

/-- Claim C8: long-ticker composition maps the tenors by the fixed table
T0 to 0001, T1 to 0002, T2 to 0003, maps any other settlement to an empty
code, uppercases the ticker, and composing ("aapl", T1, PESOS, DEFAULT)
yields exactly "AAPL-0002-C-CT-ARS". -/
theorem c8_compose_table :
    long_ticker (S "aapl") Settlement.T1 Currency.PESOS Segment.DEFAULT =
      S "AAPL-0002-C-CT-ARS" ∧
    get_byma_settlement Settlement.T0 = S "0001" ∧
    get_byma_settlement Settlement.T1 = S "0002" ∧
    get_byma_settlement Settlement.T2 = S "0003" ∧
    get_byma_settlement Settlement.NONE = S "" ∧
    pyUpper (S "aapl") = S "AAPL" := by
  refine ⟨by decide, rfl, rfl, rfl, rfl, by decide⟩

/-! ## Claim C9 -/

/-- Claim C9: the session's orders sequence is append-only and records an
identifier exactly for successful submissions.  For the only operation that
touches `self.orders`: whatever the submission response, the previous list is
a prefix of the new one (nothing is removed or reordered); a response without
the success marker leaves the list unchanged; a response with the success
marker and an order identifier appends exactly that identifier. -/
theorem c9_orders_append_only (orders : List PyObj)
    (response : List (List Char × PyObj)) :
    (∀ res, submit_buy_order_orders orders response = Except.ok res →
      orders <+: res) ∧
    (dictHasKey response (S "success") = false →
      submit_buy_order_orders orders response = Except.ok orders) ∧
    (∀ v, dictHasKey response (S "success") = true →
      lookupKV response (S "Orden") = some v →
      submit_buy_order_orders orders response = Except.ok (orders ++ [v])) := by
  refine ⟨?_, ?_, ?_⟩
  · intro res h
    unfold submit_buy_order_orders at h
    by_cases hk : dictHasKey response (S "success") = true
    · rw [if_pos hk] at h
      cases hg : lookupKV response (S "Orden") with
      | none => rw [hg] at h; exact Except.noConfusion h
      | some v =>
        rw [hg] at h
        injection h with h2
        exact h2 ▸ List.prefix_append orders [v]
    · rw [if_neg hk] at h
      injection h with h2
      exact h2 ▸ List.prefix_refl orders
  · intro hk
    unfold submit_buy_order_orders
    rw [if_neg (by simp [hk])]
  · intro v hk hg
    unfold submit_buy_order_orders
    rw [if_pos hk, hg]

/-- Witness for C9: a successful response appends its identifier; a response
without the success marker leaves the list unchanged. -/
theorem c9_orders_append_only_witness :
    submit_buy_order_orders []
        [(S "success", PyObj.pbool true), (S "Orden", PyObj.pstr (S "1"))] =
      Except.ok [PyObj.pstr (S "1")] ∧
    submit_buy_order_orders [PyObj.pstr (S "0")] [(S "ok", PyObj.pbool true)] =
      Except.ok [PyObj.pstr (S "0")] := by
  constructor
  · exact (c9_orders_append_only [] _).2.2 (PyObj.pstr (S "1")) (by decide) (by decide)
  · exact (c9_orders_append_only [PyObj.pstr (S "0")] _).2.1 (by decide)

/-! ## Claim C10 -/

lemma performance_period_path_length (df dt : List Char) :
    (performance_period_path df dt).length = 52 + (df.length + dt.length) := by
  have hA : (S "api/v1/wallet/performance/global?date_from=").length = 43 := rfl
  have hB : (S "&date_to=").length = 9 := rfl
  unfold performance_period_path
  simp only [List.length_append, hA, hB]
  omega

/-- Claim C10: for every timeframe other than RANGE, including HISTORICAL,
`portfolio_performance` requests the daily-performance endpoint and ignores
both date arguments; the historic-performance endpoint is never requested
from this operation for any timeframe. -/
theorem c10_daily_unless_range (timeframe : PerformanceTimeframe)
    (df dt : List Char) (h : timeframe ≠ PerformanceTimeframe.RANGE) :
    portfolio_performance timeframe df dt = daily_performance_path ∧
    (∀ tf2 df2 dt2, portfolio_performance tf2 df2 dt2 ≠ historic_performance_path) := by
  constructor
  · unfold portfolio_performance
    rw [if_pos h]
  · intro tf2 df2 dt2
    cases tf2 with
    | RANGE =>
      unfold portfolio_performance
      rw [if_neg (by simp)]
      intro heq
      have hl := congrArg List.length heq
      rw [performance_period_path_length] at hl
      have hh : historic_performance_path.length = 34 := rfl
      rw [hh] at hl
      omega
    | DAILY =>
      unfold portfolio_performance
      rw [if_pos (by decide)]
      decide
    | HISTORICAL =>
      unfold portfolio_performance
      rw [if_pos (by decide)]
      decide

/-- Witness for C10: the HISTORICAL timeframe with nonempty dates still
requests the daily-performance endpoint. -/
theorem c10_daily_unless_range_witness :
    portfolio_performance PerformanceTimeframe.HISTORICAL
      (S "2024-01-01") (S "2024-12-31") = daily_performance_path :=
  (c10_daily_unless_range PerformanceTimeframe.HISTORICAL (S "2024-01-01")
    (S "2024-12-31") (by decide)).1

end PyCocos
